import Mathlib

/-!
Verification of the Vulkan command-buffer lifecycle subsystem of
`Source/Engine/GraphicsDevice/Vulkan/CmdBufferVulkan.cpp`.

The C++ code is embedded shallowly: each method becomes a total Lean function on
an explicit record of the object's observable fields, and every fatal `ASSERT`
of the source becomes an error value carried in the result (together with the
object state at the point where the assertion fired).  Calls the manager makes
on external collaborators (timer queries, the queue) are recorded as trace
events.  Configuration toggles of the source (`VULKAN_USE_DESCRIPTOR_POOL_MANAGER`,
`GPU_ALLOW_PROFILE_EVENTS`, availability of the debug-utils label entry points)
are threaded through as an explicit configuration record.
-/

/-- Compile/runtime configuration of the source file: the
`VULKAN_USE_DESCRIPTOR_POOL_MANAGER` and `GPU_ALLOW_PROFILE_EVENTS` compile
switches, and whether the `vkCmdBeginDebugUtilsLabelEXT` /
`vkCmdEndDebugUtilsLabelEXT` function pointers are non-null. -/
structure Config where
  useDescriptorPoolManager : Bool
  allowProfileEvents : Bool
  hasDebugUtilsLabel : Bool
  deriving DecidableEq

/-- Error taxonomy for the fatal `ASSERT`s of the source, named as in the spec's
error-handling section. -/
inductive VulkanErr where
  | InvalidStateError
  | DuplicateResourceError
  | ConsistencyViolation
  deriving DecidableEq

/-- The `CmdBufferVulkan::State` machine (values referenced throughout the source). -/
inductive CmdBufState where
  | ReadyForBegin
  | IsInsideBegin
  | IsInsideRenderPass
  | HasEnded
  | Submitted
  deriving DecidableEq, Inhabited

/-- The device's `DescriptorPoolsManager` collaborator, reduced to what the core
observes of it: a supply of fresh pool-set container identities
(`AcquirePoolSetContainer`) and the multiset of containers handed back to it
(`ReleasePoolSet`), kept in call order. -/
structure DescriptorPoolsManager where
  nextId : Nat
  released : List Nat
  deriving DecidableEq

/-- Observable fields of one `CmdBufferVulkan`.  Semaphores, stage flags and
pool-set containers are identified by natural numbers; the native
`vkResetCommandBuffer` call and the `vkCmdBeginDebugUtilsLabelEXT` /
`vkCmdEndDebugUtilsLabelEXT` calls are recorded as counters or lists so that
theorems can speak about them.  `eventsBegin` is an `Int` because the source's
`_eventsBegin` is a signed counter (and does reach `-1`, see `End`). -/
structure CmdBufferVulkan where
  state : CmdBufState
  waitFlags : List Nat
  waitSemaphores : List Nat
  submittedWaitSemaphores : List Nat
  fenceSignaled : Bool
  fenceSignaledCounter : Nat
  submittedFenceCounter : Nat
  eventsBegin : Int
  descriptorPoolSet : Option Nat
  nativeResetCount : Nat
  labelBeginCalls : List String
  labelEndCalls : Nat
  renderPassCloses : Nat
  deriving DecidableEq, Inhabited

/-- Result of a buffer method that touches no device state: the error raised by a
fatal `ASSERT` (if any) plus the buffer as it stood when the method stopped. -/
structure BufOut where
  err : Option VulkanErr
  buf : CmdBufferVulkan
  deriving DecidableEq

/-- Result of a buffer method that can also touch the `DescriptorPoolsManager`. -/
structure BufDevOut where
  err : Option VulkanErr
  dpm : DescriptorPoolsManager
  buf : CmdBufferVulkan
  deriving DecidableEq

namespace CmdBufferVulkan

/-- Embeds `CmdBufferVulkan::AddWaitSemaphore` (lines 14-19).  The source appends
to `WaitFlags` BEFORE the duplicate `ASSERT(!WaitSemaphores.Contains(...))`, so
when the assertion fires on a duplicate semaphore the flags list has already
been mutated. -/
def AddWaitSemaphore (b : CmdBufferVulkan) (waitFlags : Nat) (waitSemaphore : Nat) : BufOut :=
  let b1 := { b with waitFlags := b.waitFlags ++ [waitFlags] }
  if b1.waitSemaphores.contains waitSemaphore then
    ⟨some .DuplicateResourceError, b1⟩
  else
    ⟨none, { b1 with waitSemaphores := b1.waitSemaphores ++ [waitSemaphore] }⟩

/-- Embeds `CmdBufferVulkan::Begin` (lines 21-44): asserts ReadyForBegin, issues
the native begin, acquires a descriptor pool set when the feature is compiled in
and none is leased, transitions to IsInsideBegin, and (with profile events
compiled in) resets the debug-event depth to zero. -/
def Begin (cfg : Config) (dpm : DescriptorPoolsManager) (b : CmdBufferVulkan) : BufDevOut :=
  if b.state = .ReadyForBegin then
    let acquire := cfg.useDescriptorPoolManager && b.descriptorPoolSet.isNone
    ⟨none,
     { dpm with nextId := if acquire then dpm.nextId + 1 else dpm.nextId },
     { b with
        descriptorPoolSet := if acquire then some dpm.nextId else b.descriptorPoolSet,
        state := .IsInsideBegin,
        eventsBegin := if cfg.allowProfileEvents then 0 else b.eventsBegin }⟩
  else
    ⟨some .InvalidStateError, dpm, b⟩

/-- Embeds `CmdBufferVulkan::End` (lines 46-58).  The assertion is
`ASSERT(IsOutsideRenderPass())`; `IsOutsideRenderPass` lives in the header,
which is not among the sources, and is modelled from the spec as "the buffer is
not currently inside a render pass".  The `while (_eventsBegin--)` flush emits
one `vkCmdEndDebugUtilsLabelEXT` per open span and, through the trailing
post-decrement of the failing loop test, leaves `_eventsBegin` at `-1`.
Entering `End` with a negative counter cannot arise from `Begin` (which resets
the counter to zero) and would be a signed-wraparound loop in C++, so that
branch is modelled as flushing nothing. -/
def End (cfg : Config) (b : CmdBufferVulkan) : BufOut :=
  if b.state = .IsInsideRenderPass then
    ⟨some .InvalidStateError, b⟩
  else
    let flush := cfg.allowProfileEvents && decide (0 ≤ b.eventsBegin)
    ⟨none,
     { b with
        eventsBegin := if flush then -1 else b.eventsBegin,
        labelEndCalls := if flush then b.labelEndCalls + b.eventsBegin.toNat else b.labelEndCalls,
        state := .HasEnded }⟩

/-- Embeds `CmdBufferVulkan::BeginRenderPass` (lines 60-77): asserts "not inside
a render pass" (header predicate, modelled from the spec) and transitions to
IsInsideRenderPass. -/
def BeginRenderPass (b : CmdBufferVulkan) : BufOut :=
  if b.state = .IsInsideRenderPass then
    ⟨some .InvalidStateError, b⟩
  else
    ⟨none, { b with state := .IsInsideRenderPass }⟩

/-- Embeds `CmdBufferVulkan::EndRenderPass` (lines 79-84): asserts
IsInsideRenderPass, issues `vkCmdEndRenderPass` (counted in
`renderPassCloses`), and transitions back to IsInsideBegin. -/
def EndRenderPass (b : CmdBufferVulkan) : BufOut :=
  if b.state = .IsInsideRenderPass then
    ⟨none, { b with state := .IsInsideBegin, renderPassCloses := b.renderPassCloses + 1 }⟩
  else
    ⟨some .InvalidStateError, b⟩

/-- Embeds `CmdBufferVulkan::BeginEvent` (lines 98-119): a no-op when the
function is compiled out or the label entry point is null; otherwise increments
`_eventsBegin` and records a label truncated to 100 characters. -/
def BeginEvent (cfg : Config) (b : CmdBufferVulkan) (name : String) : CmdBufferVulkan :=
  if cfg.allowProfileEvents = false then b
  else if cfg.hasDebugUtilsLabel = false then b
  else
    { b with
       eventsBegin := b.eventsBegin + 1,
       labelBeginCalls := b.labelBeginCalls ++ [name.take 100] }

/-- Embeds `CmdBufferVulkan::EndEvent` (lines 121-128): a no-op when the function
is compiled out, when `_eventsBegin == 0`, or when the label entry point is
null; otherwise decrements the counter and closes the most recent span. -/
def EndEvent (cfg : Config) (b : CmdBufferVulkan) : CmdBufferVulkan :=
  if cfg.allowProfileEvents = false then b
  else if b.eventsBegin = 0 ∨ cfg.hasDebugUtilsLabel = false then b
  else { b with eventsBegin := b.eventsBegin - 1, labelEndCalls := b.labelEndCalls + 1 }

/-- Embeds `CmdBufferVulkan::RefreshFenceStatus` (lines 132-160).  In the
Submitted-with-signaled-fence branch the buffer transitions to ReadyForBegin,
clears `SubmittedWaitSemaphores`, resets the native buffer (counted in
`nativeResetCount`), resets the fence, increments `FenceSignaledCounter`, and
(when `VULKAN_USE_DESCRIPTOR_POOL_MANAGER` is on) hands any leased pool-set
container back to the `DescriptorPoolsManager` and clears the lease.  Outside
the Submitted state the source runs the fatal `ASSERT(!_fence->IsSignaled())`. -/
def RefreshFenceStatus (cfg : Config) (dpm : DescriptorPoolsManager) (b : CmdBufferVulkan) :
    BufDevOut :=
  if b.state = .Submitted then
    if b.fenceSignaled then
      ⟨none,
       { dpm with
          released := dpm.released ++
            (if cfg.useDescriptorPoolManager then b.descriptorPoolSet.toList else []) },
       { b with
          state := .ReadyForBegin,
          submittedWaitSemaphores := [],
          nativeResetCount := b.nativeResetCount + 1,
          fenceSignaled := false,
          fenceSignaledCounter := b.fenceSignaledCounter + 1,
          descriptorPoolSet :=
            if cfg.useDescriptorPoolManager then none else b.descriptorPoolSet }⟩
    else
      ⟨none, dpm, b⟩
  else if b.fenceSignaled then
    ⟨some .ConsistencyViolation, dpm, b⟩
  else
    ⟨none, dpm, b⟩

/-- Modelled from the spec: `CmdBufferVulkan::IsSubmitted` is declared in
`CmdBufferVulkan.h`, which is not among the sources; per the spec it tests
whether the buffer "is already submitted", i.e. is in state Submitted. -/
def IsSubmitted (b : CmdBufferVulkan) : Bool :=
  decide (b.state = .Submitted)

/-- Modelled from the spec: `CmdBufferVulkan::HasBegun` is declared in the
header, which is not among the sources; per the spec it tests whether the
buffer "has begun recording", and the recording states of the spec's state
machine are IsInsideBegin and IsInsideRenderPass. -/
def HasBegun (b : CmdBufferVulkan) : Bool :=
  decide (b.state = .IsInsideBegin) || decide (b.state = .IsInsideRenderPass)

/-- Modelled from the spec: `CmdBufferVulkan::IsInsideRenderPass` is declared in
the header, which is not among the sources; it tests for state
IsInsideRenderPass. -/
def IsInsideRenderPass (b : CmdBufferVulkan) : Bool :=
  decide (b.state = .IsInsideRenderPass)

end CmdBufferVulkan

/-- Embeds the `CmdBufferVulkan` constructor (lines 162-179): a fresh native
handle, a freshly allocated (unsignaled) fence, both fence counters at zero,
and state ReadyForBegin. -/
def newCmdBufferVulkan : CmdBufferVulkan where
  state := .ReadyForBegin
  waitFlags := []
  waitSemaphores := []
  submittedWaitSemaphores := []
  fenceSignaled := false
  fenceSignaledCounter := 0
  submittedFenceCounter := 0
  eventsBegin := 0
  descriptorPoolSet := none
  nativeResetCount := 0
  labelBeginCalls := []
  labelEndCalls := 0
  renderPassCloses := 0

/-- Embeds `CmdBufferPoolVulkan`: the owned buffer collection (`CmdBuffers`). -/
structure CmdBufferPoolVulkan where
  cmdBuffers : List CmdBufferVulkan
  deriving DecidableEq, Inhabited

/-- Embeds `CmdBufferPoolVulkan::Create` (lines 199-204): allocates a new buffer
and appends it to the owned collection; the returned index plays the role of
the returned non-owning reference. -/
def CmdBufferPoolVulkan.Create (p : CmdBufferPoolVulkan) : CmdBufferPoolVulkan × Nat :=
  (⟨p.cmdBuffers ++ [newCmdBufferVulkan]⟩, p.cmdBuffers.length)

/-- Embeds `CmdBufferManagerVulkan`: the pool it owns, the active buffer as a
(possibly absent) index into the pool's buffer list, and the in-progress timer
queries (`QueriesInProgress`) as identifiers. -/
structure CmdBufferManagerVulkan where
  pool : CmdBufferPoolVulkan
  activeCmdBuffer : Option Nat
  queriesInProgress : List Nat
  deriving DecidableEq, Inhabited

/-- Calls the manager makes on its collaborators, in order:
`GPUTimerQueryVulkan::Interrupt`, `GPUTimerQueryVulkan::Resume`, and
`QueueVulkan::Submit` with the optional signal semaphore. -/
inductive TraceEvent where
  | interrupt (query : Nat) (buffer : Nat)
  | resume (query : Nat) (buffer : Nat)
  | submit (buffer : Nat) (signalSemaphore : Option Nat)
  deriving DecidableEq

/-- Modelled from the spec: `QueueVulkan::Submit` is not among the sources.  Per
the spec it enqueues the buffer on the hardware queue attaching the recorded
wait semaphores/stages, the buffer transitions to Submitted (only from Ended),
`submittedWaitSemaphores` becomes the snapshot of the waits actually submitted,
and the pending wait lists are cleared by the submission. -/
def QueueVulkanSubmit (b : CmdBufferVulkan) : CmdBufferVulkan :=
  { b with
     state := .Submitted,
     submittedWaitSemaphores := b.waitSemaphores,
     waitSemaphores := [],
     waitFlags := [] }

/-- Result of a manager operation: the error of any fatal `ASSERT`, the manager
state when the operation stopped, and the collaborator calls it issued. -/
structure SubmitResult where
  err : Option VulkanErr
  mgr : CmdBufferManagerVulkan
  events : List TraceEvent
  deriving DecidableEq

/-- Embeds `CmdBufferManagerVulkan::SubmitActiveCmdBuffer` (lines 253-282):
asserts an active buffer exists; when it is not yet submitted and has begun
recording, force-closes an open render pass, interrupts every in-progress
query against the active buffer, ends the buffer, and submits it to the queue
with the optional signal semaphore; finally (when no assertion fired earlier)
clears the active-buffer reference.  An out-of-range active index cannot occur
in the source, where the reference is a pointer into the pool; it is mapped to
an error. -/
def SubmitActiveCmdBuffer (cfg : Config) (mgr : CmdBufferManagerVulkan)
    (signalSemaphore : Option Nat) : SubmitResult :=
  match mgr.activeCmdBuffer with
  | none => ⟨some .InvalidStateError, mgr, []⟩
  | some i =>
    match mgr.pool.cmdBuffers[i]? with
    | none => ⟨some .InvalidStateError, mgr, []⟩
    | some b =>
      if !b.IsSubmitted && b.HasBegun then
        let r1 := if b.IsInsideRenderPass then CmdBufferVulkan.EndRenderPass b else ⟨none, b⟩
        if r1.err ≠ none then
          ⟨r1.err, { mgr with pool := ⟨mgr.pool.cmdBuffers.set i r1.buf⟩ }, []⟩
        else
          let interrupts := mgr.queriesInProgress.map (fun q => TraceEvent.interrupt q i)
          let r2 := CmdBufferVulkan.End cfg r1.buf
          if r2.err ≠ none then
            ⟨r2.err, { mgr with pool := ⟨mgr.pool.cmdBuffers.set i r2.buf⟩ }, interrupts⟩
          else
            let b3 := QueueVulkanSubmit r2.buf
            ⟨none,
             { mgr with pool := ⟨mgr.pool.cmdBuffers.set i b3⟩, activeCmdBuffer := none },
             interrupts ++ [TraceEvent.submit i signalSemaphore]⟩
      else
        ⟨none, { mgr with activeCmdBuffer := none }, []⟩

/-- Result of the pool scan of `PrepareForNewActiveCommandBuffer`: assertion
error (if one fired), the descriptor-pools manager, the pool's buffers after
the scan, and the index of the selected buffer when one was reused. -/
structure ScanResult where
  err : Option VulkanErr
  dpm : DescriptorPoolsManager
  cmdBuffers : List CmdBufferVulkan
  selected : Option Nat
  deriving DecidableEq

/-- The scan loop of `CmdBufferManagerVulkan::PrepareForNewActiveCommandBuffer`
(lines 294-308): refreshes each buffer's fence status in allocation order; the
first one found in ReadyForBegin is begun and selected (the source returns from
inside the loop at that point); every other scanned buffer must be Submitted
(fatal `ASSERT` otherwise). -/
def prepareScan (cfg : Config) (dpm : DescriptorPoolsManager) :
    List CmdBufferVulkan → ScanResult
  | [] => ⟨none, dpm, [], none⟩
  | b :: rest =>
    let r := CmdBufferVulkan.RefreshFenceStatus cfg dpm b
    if r.err ≠ none then ⟨r.err, r.dpm, r.buf :: rest, none⟩
    else if r.buf.state = .ReadyForBegin then
      let r2 := CmdBufferVulkan.Begin cfg r.dpm r.buf
      ⟨r2.err, r2.dpm, r2.buf :: rest, some 0⟩
    else if r.buf.state = .Submitted then
      let r3 := prepareScan cfg r.dpm rest
      ⟨r3.err, r3.dpm, r.buf :: r3.cmdBuffers, r3.selected.map (fun n => n + 1)⟩
    else ⟨some .InvalidStateError, r.dpm, r.buf :: rest, none⟩

/-- Result of `PrepareForNewActiveCommandBuffer`. -/
structure PrepareResult where
  err : Option VulkanErr
  dpm : DescriptorPoolsManager
  mgr : CmdBufferManagerVulkan
  events : List TraceEvent
  deriving DecidableEq

/-- Embeds `CmdBufferManagerVulkan::PrepareForNewActiveCommandBuffer`
(lines 292-319).  When the scan reuses a pooled buffer the source returns from
inside the loop, so the trailing "resume any paused queries" loop runs only on
the pool-growth path (`Pool.Create()` followed by `Begin()`); this is visible
in the `events` component. -/
def PrepareForNewActiveCommandBuffer (cfg : Config) (dpm : DescriptorPoolsManager)
    (mgr : CmdBufferManagerVulkan) : PrepareResult :=
  let out := prepareScan cfg dpm mgr.pool.cmdBuffers
  if out.err ≠ none then
    ⟨out.err, out.dpm, { mgr with pool := ⟨out.cmdBuffers⟩ }, []⟩
  else
    match out.selected with
    | some k =>
      ⟨none, out.dpm, { mgr with pool := ⟨out.cmdBuffers⟩, activeCmdBuffer := some k }, []⟩
    | none =>
      let r2 := CmdBufferVulkan.Begin cfg out.dpm newCmdBufferVulkan
      if r2.err ≠ none then
        ⟨r2.err, r2.dpm,
         { mgr with pool := ⟨out.cmdBuffers ++ [r2.buf]⟩,
                    activeCmdBuffer := some out.cmdBuffers.length }, []⟩
      else
        ⟨none, r2.dpm,
         { mgr with pool := ⟨out.cmdBuffers ++ [r2.buf]⟩,
                    activeCmdBuffer := some out.cmdBuffers.length },
         mgr.queriesInProgress.map (fun q => TraceEvent.resume q out.cmdBuffers.length)⟩

/-- Embeds `CmdBufferManagerVulkan::OnQueryBegin` (lines 321-324). -/
def OnQueryBegin (mgr : CmdBufferManagerVulkan) (query : Nat) : CmdBufferManagerVulkan :=
  { mgr with queriesInProgress := mgr.queriesInProgress ++ [query] }

/-- Embeds `CmdBufferManagerVulkan::OnQueryEnd` (lines 326-329); `Array::Remove`
removes the (first occurrence of the) query from the in-progress set. -/
def OnQueryEnd (mgr : CmdBufferManagerVulkan) (query : Nat) : CmdBufferManagerVulkan :=
  { mgr with queriesInProgress := mgr.queriesInProgress.erase query }

/-- The pool-scan selection test of `PrepareForNewActiveCommandBuffer`, expressed
on a buffer's pre-scan fields: after `RefreshFenceStatus` a buffer reads
ReadyForBegin exactly when it already was ReadyForBegin or was Submitted with a
signaled fence (`refresh_state_ready_iff` below ties this to
`RefreshFenceStatus` itself). -/
def refreshesToReadyForBegin (b : CmdBufferVulkan) : Bool :=
  decide (b.state = .ReadyForBegin) ||
    (decide (b.state = .Submitted) && b.fenceSignaled)

/-- A debug-label operation, for stating invariants over arbitrary operation
sequences. -/
inductive ProfileOp where
  | beginEvent (name : String)
  | endEvent
  deriving DecidableEq

/-- Runs one debug-label operation on a buffer. -/
def runProfileOp (cfg : Config) (b : CmdBufferVulkan) : ProfileOp → CmdBufferVulkan
  | .beginEvent n => CmdBufferVulkan.BeginEvent cfg b n
  | .endEvent => CmdBufferVulkan.EndEvent cfg b

/-- Runs a sequence of debug-label operations on a buffer. -/
def runProfileOps (cfg : Config) (b : CmdBufferVulkan) (ops : List ProfileOp) :
    CmdBufferVulkan :=
  ops.foldl (runProfileOp cfg) b

/-- Two successive `RefreshFenceStatus` calls; the second is skipped when the
first hit a fatal assertion (the process has died there). -/
def RefreshFenceStatusTwice (cfg : Config) (dpm : DescriptorPoolsManager)
    (b : CmdBufferVulkan) : BufDevOut :=
  let r := CmdBufferVulkan.RefreshFenceStatus cfg dpm b
  match r.err with
  | some _ => r
  | none => CmdBufferVulkan.RefreshFenceStatus cfg r.dpm r.buf

/-- Configuration with every optional feature compiled in and available. -/
def cfgAll : Config := ⟨true, true, true⟩

/-- A fresh descriptor-pools manager. -/
def dpm0 : DescriptorPoolsManager := ⟨0, []⟩

/-- A buffer whose submission has completed: Submitted, fence signaled, with a
leased descriptor pool set and a recorded submitted-waits snapshot. -/
def doneBuffer : CmdBufferVulkan :=
  { newCmdBufferVulkan with
     state := .Submitted, fenceSignaled := true,
     descriptorPoolSet := some 5, submittedWaitSemaphores := [3] }

/-- A buffer submitted and still executing (fence unsignaled). -/
def inFlightBuffer : CmdBufferVulkan :=
  { newCmdBufferVulkan with state := .Submitted }

/-- A buffer in the middle of recording. -/
def recordingBuffer : CmdBufferVulkan :=
  { newCmdBufferVulkan with state := .IsInsideBegin }

/-- A buffer not in Submitted state whose fence is nevertheless signaled. -/
def badBuffer : CmdBufferVulkan :=
  { newCmdBufferVulkan with fenceSignaled := true }

/-- A buffer with one registered wait semaphore. -/
def dupBuffer : CmdBufferVulkan :=
  { newCmdBufferVulkan with waitSemaphores := [5], waitFlags := [1] }

/-- A manager holding one completed (ReadyForBegin) pooled buffer and one
in-progress timer query. -/
def mgrReuse : CmdBufferManagerVulkan := ⟨⟨[newCmdBufferVulkan]⟩, none, [7]⟩

/-- A manager with an empty pool and no queries. -/
def mgrEmpty : CmdBufferManagerVulkan := ⟨⟨[]⟩, none, []⟩

/-- A manager whose active buffer is recording, with one in-progress query. -/
def mgrRecording : CmdBufferManagerVulkan := ⟨⟨[recordingBuffer]⟩, some 0, [7]⟩

/-! ### Helper lemmas -/

theorem begin_of_ready (cfg : Config) (dpm : DescriptorPoolsManager) (b : CmdBufferVulkan)
    (h : b.state = .ReadyForBegin) :
    (CmdBufferVulkan.Begin cfg dpm b).err = none ∧
      (CmdBufferVulkan.Begin cfg dpm b).buf.state = .IsInsideBegin := by
  simp [CmdBufferVulkan.Begin, h]

theorem refresh_submitted_signaled (cfg : Config) (dpm : DescriptorPoolsManager)
    (b : CmdBufferVulkan) (hs : b.state = .Submitted) (hf : b.fenceSignaled = true) :
    CmdBufferVulkan.RefreshFenceStatus cfg dpm b =
      ⟨none,
       { dpm with released := dpm.released ++
          (if cfg.useDescriptorPoolManager then b.descriptorPoolSet.toList else []) },
       { b with
          state := .ReadyForBegin,
          submittedWaitSemaphores := [],
          nativeResetCount := b.nativeResetCount + 1,
          fenceSignaled := false,
          fenceSignaledCounter := b.fenceSignaledCounter + 1,
          descriptorPoolSet :=
            if cfg.useDescriptorPoolManager then none else b.descriptorPoolSet }⟩ := by
  simp [CmdBufferVulkan.RefreshFenceStatus, hs, hf]

theorem refresh_submitted_unsignaled (cfg : Config) (dpm : DescriptorPoolsManager)
    (b : CmdBufferVulkan) (hs : b.state = .Submitted) (hf : b.fenceSignaled = false) :
    CmdBufferVulkan.RefreshFenceStatus cfg dpm b = ⟨none, dpm, b⟩ := by
  simp [CmdBufferVulkan.RefreshFenceStatus, hs, hf]

theorem refresh_not_submitted (cfg : Config) (dpm : DescriptorPoolsManager)
    (b : CmdBufferVulkan) (hs : ¬ b.state = .Submitted) :
    CmdBufferVulkan.RefreshFenceStatus cfg dpm b =
      if b.fenceSignaled then ⟨some .ConsistencyViolation, dpm, b⟩ else ⟨none, dpm, b⟩ := by
  simp [CmdBufferVulkan.RefreshFenceStatus, hs]

theorem refresh_state_ready_iff (cfg : Config) (dpm : DescriptorPoolsManager)
    (b : CmdBufferVulkan) :
    (CmdBufferVulkan.RefreshFenceStatus cfg dpm b).buf.state = .ReadyForBegin ↔
      refreshesToReadyForBegin b = true := by
  by_cases hs : b.state = .Submitted
  · by_cases hf : b.fenceSignaled
    · simp [refresh_submitted_signaled cfg dpm b hs hf, refreshesToReadyForBegin, hs, hf]
    · simp only [Bool.not_eq_true] at hf
      simp [refresh_submitted_unsignaled cfg dpm b hs hf, refreshesToReadyForBegin, hs, hf]
  · rcases hf : b.fenceSignaled <;>
      simp [refresh_not_submitted cfg dpm b hs, refreshesToReadyForBegin, hs, hf]

theorem prepareScan_length (cfg : Config) (bufs : List CmdBufferVulkan) :
    ∀ dpm : DescriptorPoolsManager,
      ((prepareScan cfg dpm bufs).cmdBuffers).length = bufs.length := by
  induction bufs with
  | nil => intro dpm; rfl
  | cons b rest ih =>
    intro dpm
    simp only [prepareScan]
    split
    · simp
    · split
      · simp
      · split
        · simp [ih]
        · simp


theorem prepareScan_selected_spec (cfg : Config) (bufs : List CmdBufferVulkan) :
    ∀ (dpm : DescriptorPoolsManager) (k : Nat),
      (prepareScan cfg dpm bufs).selected = some k →
        (prepareScan cfg dpm bufs).err = none ∧
        (∃ bk, bufs[k]? = some bk ∧ refreshesToReadyForBegin bk = true) ∧
        (∀ j bj, j < k → bufs[j]? = some bj → refreshesToReadyForBegin bj = false) ∧
        (∃ bk, (prepareScan cfg dpm bufs).cmdBuffers[k]? = some bk ∧
          bk.state = .IsInsideBegin) := by
  induction bufs with
  | nil => intro dpm k h; simp [prepareScan] at h
  | cons b rest ih =>
    intro dpm k h
    simp only [prepareScan] at h ⊢
    by_cases herr : (CmdBufferVulkan.RefreshFenceStatus cfg dpm b).err ≠ none
    · rw [if_pos herr] at h
      simp at h
    · rw [if_neg herr] at h ⊢
      by_cases hready :
          (CmdBufferVulkan.RefreshFenceStatus cfg dpm b).buf.state = .ReadyForBegin
      · rw [if_pos hready] at h ⊢
        have h' : some 0 = some k := h
        obtain rfl : k = 0 := (Option.some.inj h').symm
        have hbeg := begin_of_ready cfg (CmdBufferVulkan.RefreshFenceStatus cfg dpm b).dpm
          (CmdBufferVulkan.RefreshFenceStatus cfg dpm b).buf hready
        exact ⟨hbeg.1,
          ⟨b, by simp, (refresh_state_ready_iff cfg dpm b).mp hready⟩,
          fun j bj hj _ => absurd hj (Nat.not_lt_zero j),
          ⟨(CmdBufferVulkan.Begin cfg (CmdBufferVulkan.RefreshFenceStatus cfg dpm b).dpm
              (CmdBufferVulkan.RefreshFenceStatus cfg dpm b).buf).buf, by simp, hbeg.2⟩⟩
      · rw [if_neg hready] at h ⊢
        by_cases hsub :
            (CmdBufferVulkan.RefreshFenceStatus cfg dpm b).buf.state = .Submitted
        · rw [if_pos hsub] at h ⊢
          have h' : Option.map (fun n => n + 1)
              (prepareScan cfg (CmdBufferVulkan.RefreshFenceStatus cfg dpm b).dpm
                rest).selected = some k := h
          rw [Option.map_eq_some'] at h'
          obtain ⟨k', hk', hkk⟩ := h'
          subst hkk
          obtain ⟨hH1, ⟨bk, hbk, hbkr⟩, hH3, ⟨bk2, hbk2, hbk2s⟩⟩ := ih _ k' hk'
          refine ⟨hH1, ⟨bk, by simpa using hbk, hbkr⟩, ?_,
            ⟨bk2, by simpa using hbk2, hbk2s⟩⟩
          intro j bj hj hbj
          rcases j with _ | j
          · have hb0 : b = bj := by simpa using hbj
            subst hb0
            have hnr : ¬ (CmdBufferVulkan.RefreshFenceStatus cfg dpm b).buf.state
                = .ReadyForBegin := hready
            have := (not_congr (refresh_state_ready_iff cfg dpm b)).mp hnr
            simpa using this
          · exact hH3 j bj (by omega) (by simpa using hbj)
        · rw [if_neg hsub] at h
          simp at h

theorem prepareScan_none_spec (cfg : Config) (bufs : List CmdBufferVulkan) :
    ∀ dpm : DescriptorPoolsManager,
      (prepareScan cfg dpm bufs).err = none →
      (prepareScan cfg dpm bufs).selected = none →
      ∀ (j : Nat) (bj : CmdBufferVulkan),
        bufs[j]? = some bj → refreshesToReadyForBegin bj = false := by
  induction bufs with
  | nil => intro dpm _ _ j bj hj; simp at hj
  | cons b rest ih =>
    intro dpm herr0 hsel j bj hbj
    simp only [prepareScan] at herr0 hsel
    by_cases herr : (CmdBufferVulkan.RefreshFenceStatus cfg dpm b).err ≠ none
    · rw [if_pos herr] at herr0
      exact absurd herr0 herr
    · rw [if_neg herr] at herr0 hsel
      by_cases hready :
          (CmdBufferVulkan.RefreshFenceStatus cfg dpm b).buf.state = .ReadyForBegin
      · rw [if_pos hready] at hsel
        have h' : some 0 = (none : Option Nat) := hsel
        simp at h'
      · rw [if_neg hready] at herr0 hsel
        by_cases hsub :
            (CmdBufferVulkan.RefreshFenceStatus cfg dpm b).buf.state = .Submitted
        · rw [if_pos hsub] at herr0 hsel
          have herr' : (prepareScan cfg
              (CmdBufferVulkan.RefreshFenceStatus cfg dpm b).dpm rest).err = none := herr0
          have hsel' : Option.map (fun n => n + 1)
              (prepareScan cfg (CmdBufferVulkan.RefreshFenceStatus cfg dpm b).dpm
                rest).selected = none := hsel
          rw [Option.map_eq_none'] at hsel'
          rcases j with _ | j
          · have hb0 : b = bj := by simpa using hbj
            subst hb0
            have := (not_congr (refresh_state_ready_iff cfg dpm b)).mp hready
            simpa using this
          · exact ih _ herr' hsel' j bj (by simpa using hbj)
        · rw [if_neg hsub] at herr0
          have h' : (some VulkanErr.InvalidStateError : Option VulkanErr) = none := herr0
          simp at h'

theorem runProfileOp_nonneg (cfg : Config) (b : CmdBufferVulkan) (op : ProfileOp)
    (h : 0 ≤ b.eventsBegin) : 0 ≤ (runProfileOp cfg b op).eventsBegin := by
  cases op with
  | beginEvent n =>
    simp only [runProfileOp, CmdBufferVulkan.BeginEvent]
    split
    · exact h
    · split
      · exact h
      · show 0 ≤ b.eventsBegin + 1
        omega
  | endEvent =>
    simp only [runProfileOp, CmdBufferVulkan.EndEvent]
    split
    · exact h
    · split
      · exact h
      · rename_i h1 h2
        have hne : b.eventsBegin ≠ 0 := fun he => h2 (Or.inl he)
        show 0 ≤ b.eventsBegin - 1
        omega

theorem hasBegun_cases (b : CmdBufferVulkan) (h : b.HasBegun = true) :
    b.state = .IsInsideBegin ∨ b.state = .IsInsideRenderPass := by
  simpa [CmdBufferVulkan.HasBegun, Bool.or_eq_true, decide_eq_true_eq] using h

theorem hasBegun_guard (b : CmdBufferVulkan) (h : b.HasBegun = true) :
    (!b.IsSubmitted && b.HasBegun) = true := by
  rcases hasBegun_cases b h with h1 | h1 <;>
    simp [CmdBufferVulkan.IsSubmitted, CmdBufferVulkan.HasBegun, h1]

theorem submit_active_begun (cfg : Config) (mgr : CmdBufferManagerVulkan)
    (sem : Option Nat) (i : Nat) (b : CmdBufferVulkan)
    (hact : mgr.activeCmdBuffer = some i)
    (hb : mgr.pool.cmdBuffers[i]? = some b)
    (hbegun : b.HasBegun = true) :
    SubmitActiveCmdBuffer cfg mgr sem =
      ⟨none,
       { mgr with
          pool := ⟨mgr.pool.cmdBuffers.set i
            (QueueVulkanSubmit (CmdBufferVulkan.End cfg
              (if b.IsInsideRenderPass then CmdBufferVulkan.EndRenderPass b
               else ⟨none, b⟩).buf).buf)⟩,
          activeCmdBuffer := none },
       mgr.queriesInProgress.map (fun q => TraceEvent.interrupt q i)
         ++ [TraceEvent.submit i sem]⟩ := by
  rcases hasBegun_cases b hbegun with h1 | h1 <;>
    simp [SubmitActiveCmdBuffer, hact, hb, hasBegun_guard b hbegun,
      CmdBufferVulkan.IsInsideRenderPass, CmdBufferVulkan.EndRenderPass,
      CmdBufferVulkan.End, h1]

theorem refresh_noop (cfg : Config) (dpm : DescriptorPoolsManager)
    (b : CmdBufferVulkan) (hs : b.state ≠ .Submitted) (hf : b.fenceSignaled = false) :
    CmdBufferVulkan.RefreshFenceStatus cfg dpm b = ⟨none, dpm, b⟩ := by
  simp [refresh_not_submitted cfg dpm b hs, hf]

theorem runProfileOps_nonneg (cfg : Config) (ops : List ProfileOp) :
    ∀ b : CmdBufferVulkan, 0 ≤ b.eventsBegin →
      0 ≤ (runProfileOps cfg b ops).eventsBegin := by
  induction ops with
  | nil => intro b h; exact h
  | cons op ops ih => intro b h; exact ih _ (runProfileOp_nonneg cfg b op h)

/-! ### Claim theorems -/

/-- C1: evaluation at the failing input.  With the pool holding one buffer
already in ReadyForBegin and one timer query in the in-progress set,
`PrepareForNewActiveCommandBuffer` reuses the pooled buffer (active index 0) and
returns with an EMPTY event trace: no `Resume` call is issued for the
in-progress query, because the source returns from inside the scan loop before
reaching the resume loop.  The claim requires a `Resume(activeBuffer)` for
every in-progress query regardless of whether the buffer was reused or newly
created. -/
theorem C1_reuse_path_skips_resume :
    (PrepareForNewActiveCommandBuffer cfgAll dpm0 mgrReuse).err = none ∧
    (PrepareForNewActiveCommandBuffer cfgAll dpm0 mgrReuse).mgr.activeCmdBuffer
      = some 0 ∧
    mgrReuse.queriesInProgress = [7] ∧
    (PrepareForNewActiveCommandBuffer cfgAll dpm0 mgrReuse).events = [] :=
  ⟨rfl, rfl, rfl, rfl⟩

/-- C2 counterexample: starting from a freshly constructed buffer, the sequence
`Begin` then `End` (with no events recorded at all) leaves `eventsBegin` at
`-1`: the flush loop's trailing post-decrement drives the nesting counter
negative, so the counter is not "never negative" over sequences that include
`End`. -/
theorem C2_counterexample :
    (CmdBufferVulkan.End cfgAll
        (CmdBufferVulkan.Begin cfgAll dpm0 newCmdBufferVulkan).buf).buf.eventsBegin
      = -1 ∧
    (CmdBufferVulkan.End cfgAll
        (CmdBufferVulkan.Begin cfgAll dpm0 newCmdBufferVulkan).buf).buf.eventsBegin
      < 0 :=
  ⟨rfl, by decide⟩

/-- C2 (amended): over every sequence of `BeginEvent`/`EndEvent` operations the
debug-event depth stays non-negative, and `EndEvent` called at depth zero is a
no-op that does not decrement the counter; `End`, however, leaves the counter at
`-1` (its flush loop ends on a post-decrement), so the never-negative guarantee
holds for the event operations but not across `End`. -/
theorem C2_event_depth (cfg : Config) (b : CmdBufferVulkan) (ops : List ProfileOp)
    (h : 0 ≤ b.eventsBegin) :
    0 ≤ (runProfileOps cfg b ops).eventsBegin ∧
    (b.eventsBegin = 0 → CmdBufferVulkan.EndEvent cfg b = b) := by
  refine ⟨runProfileOps_nonneg cfg ops b h, fun h0 => ?_⟩
  simp [CmdBufferVulkan.EndEvent, h0]

/-- C2 witness: the amended theorem applied to a fresh buffer and the spec's
scenario sequence (two opens followed by three closes; the third `EndEvent` is
a no-op). -/
theorem C2_event_depth_witness :
    0 ≤ newCmdBufferVulkan.eventsBegin ∧
    (0 ≤ (runProfileOps cfgAll newCmdBufferVulkan
        [.beginEvent "A", .beginEvent "B", .endEvent, .endEvent,
          .endEvent]).eventsBegin ∧
      (newCmdBufferVulkan.eventsBegin = 0 →
        CmdBufferVulkan.EndEvent cfgAll newCmdBufferVulkan = newCmdBufferVulkan)) :=
  ⟨by decide, C2_event_depth cfgAll newCmdBufferVulkan _ (by decide)⟩

/-- C4: refreshing a Submitted buffer whose fence is observed signaled yields
state ReadyForBegin with empty `submittedWaitSemaphores`, resets the native
buffer exactly once more, resets the fence, increments `fenceSignaledCounter`
by exactly one, and releases any leased pool-set container back to the
descriptor-pools manager, clearing the lease (stated with the pool-set feature
compiled in, the configuration the spec describes). -/
theorem C4_refresh_submitted_signaled (cfg : Config) (dpm : DescriptorPoolsManager)
    (b : CmdBufferVulkan) (hcfg : cfg.useDescriptorPoolManager = true)
    (hs : b.state = .Submitted) (hf : b.fenceSignaled = true) :
    (CmdBufferVulkan.RefreshFenceStatus cfg dpm b).err = none ∧
    (CmdBufferVulkan.RefreshFenceStatus cfg dpm b).buf.state = .ReadyForBegin ∧
    (CmdBufferVulkan.RefreshFenceStatus cfg dpm b).buf.submittedWaitSemaphores = [] ∧
    (CmdBufferVulkan.RefreshFenceStatus cfg dpm b).buf.nativeResetCount
      = b.nativeResetCount + 1 ∧
    (CmdBufferVulkan.RefreshFenceStatus cfg dpm b).buf.fenceSignaled = false ∧
    (CmdBufferVulkan.RefreshFenceStatus cfg dpm b).buf.fenceSignaledCounter
      = b.fenceSignaledCounter + 1 ∧
    (CmdBufferVulkan.RefreshFenceStatus cfg dpm b).buf.descriptorPoolSet = none ∧
    (CmdBufferVulkan.RefreshFenceStatus cfg dpm b).dpm.released
      = dpm.released ++ b.descriptorPoolSet.toList := by
  simp [refresh_submitted_signaled cfg dpm b hs hf, hcfg]

/-- C4 witness: the theorem evaluated on a completed buffer holding pool-set
lease number 5. -/
theorem C4_refresh_submitted_signaled_witness :
    cfgAll.useDescriptorPoolManager = true ∧
    doneBuffer.state = .Submitted ∧
    doneBuffer.fenceSignaled = true ∧
    ((CmdBufferVulkan.RefreshFenceStatus cfgAll dpm0 doneBuffer).buf.state
        = .ReadyForBegin ∧
      (CmdBufferVulkan.RefreshFenceStatus cfgAll dpm0 doneBuffer).buf.descriptorPoolSet
        = none ∧
      (CmdBufferVulkan.RefreshFenceStatus cfgAll dpm0 doneBuffer).dpm.released
        = dpm0.released ++ doneBuffer.descriptorPoolSet.toList) := by
  have h := C4_refresh_submitted_signaled cfgAll dpm0 doneBuffer rfl rfl rfl
  exact ⟨rfl, rfl, rfl, h.2.1, h.2.2.2.2.2.2.1, h.2.2.2.2.2.2.2⟩

/-- C6 counterexample: adding a semaphore already present fails with
DuplicateResourceError and leaves `waitSemaphores` unchanged, but the parallel
stage-flags list HAS been mutated (the source appends the flags before the
duplicate check), contradicting "mutates neither waitSemaphores nor
waitStageFlags". -/
theorem C6_counterexample :
    (CmdBufferVulkan.AddWaitSemaphore dupBuffer 2 5).err
      = some .DuplicateResourceError ∧
    (CmdBufferVulkan.AddWaitSemaphore dupBuffer 2 5).buf.waitSemaphores
      = dupBuffer.waitSemaphores ∧
    (CmdBufferVulkan.AddWaitSemaphore dupBuffer 2 5).buf.waitFlags
      ≠ dupBuffer.waitFlags :=
  ⟨rfl, rfl, by decide⟩

/-- C6 (amended): on a duplicate semaphore `AddWaitSemaphore` fails with
DuplicateResourceError leaving `waitSemaphores` unchanged, but `waitStageFlags`
has already received the appended element (the append precedes the duplicate
check); on a fresh semaphore it appends one element to each of the two parallel
sequences, preserving the length equality. -/
theorem C6_add_wait_semaphore (b : CmdBufferVulkan) (f s : Nat)
    (hlen : b.waitSemaphores.length = b.waitFlags.length) :
    (b.waitSemaphores.contains s = true →
      (CmdBufferVulkan.AddWaitSemaphore b f s).err = some .DuplicateResourceError ∧
      (CmdBufferVulkan.AddWaitSemaphore b f s).buf.waitSemaphores
        = b.waitSemaphores ∧
      (CmdBufferVulkan.AddWaitSemaphore b f s).buf.waitFlags = b.waitFlags ++ [f]) ∧
    (b.waitSemaphores.contains s = false →
      (CmdBufferVulkan.AddWaitSemaphore b f s).err = none ∧
      (CmdBufferVulkan.AddWaitSemaphore b f s).buf.waitSemaphores
        = b.waitSemaphores ++ [s] ∧
      (CmdBufferVulkan.AddWaitSemaphore b f s).buf.waitFlags = b.waitFlags ++ [f] ∧
      (CmdBufferVulkan.AddWaitSemaphore b f s).buf.waitSemaphores.length
        = (CmdBufferVulkan.AddWaitSemaphore b f s).buf.waitFlags.length) := by
  constructor
  · intro hdup
    have hmem : s ∈ b.waitSemaphores := by simpa using hdup
    simp [CmdBufferVulkan.AddWaitSemaphore, hmem]
  · intro hdup
    have hmem : s ∉ b.waitSemaphores := by simpa using hdup
    simp [CmdBufferVulkan.AddWaitSemaphore, hmem, hlen]

/-- C6 witness: the amended theorem evaluated on a fresh buffer (no duplicate)
and, via the counterexample above, on a duplicate. -/
theorem C6_add_wait_semaphore_witness :
    newCmdBufferVulkan.waitSemaphores.length = newCmdBufferVulkan.waitFlags.length ∧
    ((newCmdBufferVulkan.waitSemaphores.contains 5 = true →
      (CmdBufferVulkan.AddWaitSemaphore newCmdBufferVulkan 1 5).err
        = some .DuplicateResourceError ∧
      (CmdBufferVulkan.AddWaitSemaphore newCmdBufferVulkan 1 5).buf.waitSemaphores
        = newCmdBufferVulkan.waitSemaphores ∧
      (CmdBufferVulkan.AddWaitSemaphore newCmdBufferVulkan 1 5).buf.waitFlags
        = newCmdBufferVulkan.waitFlags ++ [1]) ∧
    (newCmdBufferVulkan.waitSemaphores.contains 5 = false →
      (CmdBufferVulkan.AddWaitSemaphore newCmdBufferVulkan 1 5).err = none ∧
      (CmdBufferVulkan.AddWaitSemaphore newCmdBufferVulkan 1 5).buf.waitSemaphores
        = newCmdBufferVulkan.waitSemaphores ++ [5] ∧
      (CmdBufferVulkan.AddWaitSemaphore newCmdBufferVulkan 1 5).buf.waitFlags
        = newCmdBufferVulkan.waitFlags ++ [1] ∧
      (CmdBufferVulkan.AddWaitSemaphore newCmdBufferVulkan 1 5).buf.waitSemaphores.length
        = (CmdBufferVulkan.AddWaitSemaphore
            newCmdBufferVulkan 1 5).buf.waitFlags.length)) :=
  ⟨rfl, C6_add_wait_semaphore newCmdBufferVulkan 1 5 rfl⟩

/-- C8: on a buffer not in Submitted state, `RefreshFenceStatus` raises the
fatal ConsistencyViolation exactly when the fence is observed signaled, and
raises no error when the fence is unsignaled. -/
theorem C8_refresh_consistency (cfg : Config) (dpm : DescriptorPoolsManager)
    (b : CmdBufferVulkan) (hs : b.state ≠ .Submitted) :
    (CmdBufferVulkan.RefreshFenceStatus cfg dpm b).err
      = (if b.fenceSignaled then some .ConsistencyViolation else none) := by
  rcases hf : b.fenceSignaled <;>
    simp [refresh_not_submitted cfg dpm b hs, hf]

/-- C8 witness: a ReadyForBegin buffer with a signaled fence trips the
consistency assertion; the same buffer with an unsignaled fence does not. -/
theorem C8_refresh_consistency_witness :
    badBuffer.state ≠ .Submitted ∧
    (CmdBufferVulkan.RefreshFenceStatus cfgAll dpm0 badBuffer).err
      = some .ConsistencyViolation ∧
    (CmdBufferVulkan.RefreshFenceStatus cfgAll dpm0 newCmdBufferVulkan).err = none := by
  refine ⟨by decide, ?_, ?_⟩
  · have h := C8_refresh_consistency cfgAll dpm0 badBuffer (by decide)
    simpa [badBuffer] using h
  · have h := C8_refresh_consistency cfgAll dpm0 newCmdBufferVulkan (by decide)
    simpa [newCmdBufferVulkan] using h

/-- C10: `RefreshFenceStatus` is idempotent: a second refresh immediately after
a first changes nothing, because a buffer not in Submitted state (with its
fence unsignaled) is left untouched, and the Submitted-and-signaled branch
leaves the buffer ReadyForBegin with its fence reset — so the second call takes
the no-op path.  When the first call trips the fatal assertion the second does
not run. -/
theorem C10_refresh_idempotent (cfg : Config) (dpm : DescriptorPoolsManager)
    (b : CmdBufferVulkan) :
    RefreshFenceStatusTwice cfg dpm b = CmdBufferVulkan.RefreshFenceStatus cfg dpm b := by
  by_cases hs : b.state = .Submitted
  · by_cases hf : b.fenceSignaled
    · have h1 := refresh_submitted_signaled cfg dpm b hs hf
      simp only [RefreshFenceStatusTwice, h1]
      exact refresh_noop cfg _ _ (by simp) rfl
    · simp only [Bool.not_eq_true] at hf
      simp [RefreshFenceStatusTwice, refresh_submitted_unsignaled cfg dpm b hs hf]
  · rcases hf : b.fenceSignaled <;>
      simp [RefreshFenceStatusTwice, refresh_not_submitted cfg dpm b hs, hf]

/-- C9: whenever `PrepareForNewActiveCommandBuffer` returns without tripping any
assertion, the manager's active-buffer reference is set, it indexes a buffer of
the manager's pool, and that buffer is in state IsInsideBegin (`Begin` has been
called on it). -/
theorem C9_prepare_postcondition (cfg : Config) (dpm : DescriptorPoolsManager)
    (mgr : CmdBufferManagerVulkan)
    (h : (PrepareForNewActiveCommandBuffer cfg dpm mgr).err = none) :
    ∃ (i : Nat) (b : CmdBufferVulkan),
      (PrepareForNewActiveCommandBuffer cfg dpm mgr).mgr.activeCmdBuffer = some i ∧
      (PrepareForNewActiveCommandBuffer cfg dpm mgr).mgr.pool.cmdBuffers[i]? = some b ∧
      b.state = .IsInsideBegin := by
  simp only [PrepareForNewActiveCommandBuffer] at h ⊢
  by_cases herr : (prepareScan cfg dpm mgr.pool.cmdBuffers).err ≠ none
  · rw [if_pos herr] at h
    exact absurd h herr
  · rw [if_neg herr] at h ⊢
    rcases hsel : (prepareScan cfg dpm mgr.pool.cmdBuffers).selected with _ | k
    · simp only [hsel] at h ⊢
      have hbeg := begin_of_ready cfg (prepareScan cfg dpm mgr.pool.cmdBuffers).dpm
        newCmdBufferVulkan rfl
      have hcond : ¬ ((CmdBufferVulkan.Begin cfg
          (prepareScan cfg dpm mgr.pool.cmdBuffers).dpm newCmdBufferVulkan).err
          ≠ none) := by simp [hbeg.1]
      rw [if_neg hcond]
      exact ⟨(prepareScan cfg dpm mgr.pool.cmdBuffers).cmdBuffers.length, _,
        rfl, List.getElem?_concat_length _ _, hbeg.2⟩
    · simp only [hsel] at h ⊢
      obtain ⟨_, _, _, ⟨bk, hbk, hbks⟩⟩ :=
        prepareScan_selected_spec cfg mgr.pool.cmdBuffers dpm k hsel
      exact ⟨k, bk, rfl, hbk, hbks⟩

/-- C9 witness: the theorem at a manager with an empty pool — a buffer is
created, begun, and becomes the active buffer. -/
theorem C9_prepare_postcondition_witness :
    (PrepareForNewActiveCommandBuffer cfgAll dpm0 mgrEmpty).err = none ∧
    ∃ (i : Nat) (b : CmdBufferVulkan),
      (PrepareForNewActiveCommandBuffer cfgAll dpm0 mgrEmpty).mgr.activeCmdBuffer
        = some i ∧
      (PrepareForNewActiveCommandBuffer cfgAll dpm0 mgrEmpty).mgr.pool.cmdBuffers[i]?
        = some b ∧
      b.state = .IsInsideBegin :=
  ⟨rfl, C9_prepare_postcondition cfgAll dpm0 mgrEmpty rfl⟩

/-- C3: the scan of `PrepareForNewActiveCommandBuffer` selects, in allocation
order, the first buffer whose fence refresh leaves it ReadyForBegin, begins it,
and leaves the pool size unchanged; a new buffer is created via the pool (and
begun) only when no scanned buffer qualifies.  Consequently, a pool holding
only a Submitted buffer B1 with an unsignaled fence grows to a second buffer
instead of reusing B1, while once B1's fence is signaled a subsequent call
selects B1 (index 0) before creating any new buffer. -/
theorem C3_scan_reuse_priority :
    (∀ (cfg : Config) (dpm : DescriptorPoolsManager) (mgr : CmdBufferManagerVulkan),
      (PrepareForNewActiveCommandBuffer cfg dpm mgr).err = none →
      ((∃ (k : Nat) (bk bk2 : CmdBufferVulkan),
          (PrepareForNewActiveCommandBuffer cfg dpm mgr).mgr.activeCmdBuffer
            = some k ∧
          mgr.pool.cmdBuffers[k]? = some bk ∧ refreshesToReadyForBegin bk = true ∧
          (∀ (j : Nat) (bj : CmdBufferVulkan), j < k →
            mgr.pool.cmdBuffers[j]? = some bj →
              refreshesToReadyForBegin bj = false) ∧
          (PrepareForNewActiveCommandBuffer cfg dpm mgr).mgr.pool.cmdBuffers.length
            = mgr.pool.cmdBuffers.length ∧
          (PrepareForNewActiveCommandBuffer cfg dpm mgr).mgr.pool.cmdBuffers[k]?
            = some bk2 ∧
          bk2.state = .IsInsideBegin) ∨
       ((∀ (j : Nat) (bj : CmdBufferVulkan),
            mgr.pool.cmdBuffers[j]? = some bj → refreshesToReadyForBegin bj = false) ∧
         (PrepareForNewActiveCommandBuffer cfg dpm mgr).mgr.pool.cmdBuffers.length
           = mgr.pool.cmdBuffers.length + 1 ∧
         (PrepareForNewActiveCommandBuffer cfg dpm mgr).mgr.activeCmdBuffer
           = some mgr.pool.cmdBuffers.length ∧
         (∃ bn, (PrepareForNewActiveCommandBuffer cfg dpm
              mgr).mgr.pool.cmdBuffers[mgr.pool.cmdBuffers.length]? = some bn ∧
            bn.state = .IsInsideBegin)))) ∧
    (∀ (cfg : Config) (dpm : DescriptorPoolsManager) (b1 : CmdBufferVulkan)
        (qs : List Nat), b1.state = .Submitted →
      ((b1.fenceSignaled = false →
        (PrepareForNewActiveCommandBuffer cfg dpm ⟨⟨[b1]⟩, none, qs⟩).err = none ∧
        (PrepareForNewActiveCommandBuffer cfg dpm
          ⟨⟨[b1]⟩, none, qs⟩).mgr.pool.cmdBuffers.length = 2 ∧
        (PrepareForNewActiveCommandBuffer cfg dpm
          ⟨⟨[b1]⟩, none, qs⟩).mgr.activeCmdBuffer = some 1) ∧
       (b1.fenceSignaled = true →
        (PrepareForNewActiveCommandBuffer cfg dpm ⟨⟨[b1]⟩, none, qs⟩).err = none ∧
        (PrepareForNewActiveCommandBuffer cfg dpm
          ⟨⟨[b1]⟩, none, qs⟩).mgr.pool.cmdBuffers.length = 1 ∧
        (PrepareForNewActiveCommandBuffer cfg dpm
          ⟨⟨[b1]⟩, none, qs⟩).mgr.activeCmdBuffer = some 0 ∧
        (∃ b2, (PrepareForNewActiveCommandBuffer cfg dpm
            ⟨⟨[b1]⟩, none, qs⟩).mgr.pool.cmdBuffers[0]? = some b2 ∧
          b2.state = .IsInsideBegin)))) := by
  constructor
  · intro cfg dpm mgr h
    simp only [PrepareForNewActiveCommandBuffer] at h ⊢
    by_cases herr : (prepareScan cfg dpm mgr.pool.cmdBuffers).err ≠ none
    · rw [if_pos herr] at h
      exact absurd h herr
    · rw [if_neg herr] at h ⊢
      have herr' : (prepareScan cfg dpm mgr.pool.cmdBuffers).err = none :=
        not_not.mp herr
      rcases hsel : (prepareScan cfg dpm mgr.pool.cmdBuffers).selected with _ | k
      · right
        simp only [hsel] at h ⊢
        have hbeg := begin_of_ready cfg (prepareScan cfg dpm mgr.pool.cmdBuffers).dpm
          newCmdBufferVulkan rfl
        have hcond : ¬ ((CmdBufferVulkan.Begin cfg
            (prepareScan cfg dpm mgr.pool.cmdBuffers).dpm newCmdBufferVulkan).err
            ≠ none) := by simp [hbeg.1]
        rw [if_neg hcond]
        have hlen := prepareScan_length cfg mgr.pool.cmdBuffers dpm
        refine ⟨prepareScan_none_spec cfg mgr.pool.cmdBuffers dpm herr' hsel,
          by simp [hlen], by simp [hlen], ?_⟩
        refine ⟨_, ?_, hbeg.2⟩
        rw [← hlen]
        exact List.getElem?_concat_length _ _
      · left
        simp only [hsel] at h ⊢
        obtain ⟨_, ⟨bk, hbk, hbkr⟩, hfirst, ⟨bk2, hbk2, hbk2s⟩⟩ :=
          prepareScan_selected_spec cfg mgr.pool.cmdBuffers dpm k hsel
        exact ⟨k, bk, bk2, rfl, hbk, hbkr, hfirst,
          prepareScan_length cfg mgr.pool.cmdBuffers dpm, hbk2, hbk2s⟩
  · intro cfg dpm b1 qs hs
    constructor
    · intro hf
      have hscan : prepareScan cfg dpm [b1] = ⟨none, dpm, [b1], none⟩ := by
        simp [prepareScan, refresh_submitted_unsignaled cfg dpm b1 hs hf, hs]
      have hbeg := begin_of_ready cfg dpm newCmdBufferVulkan rfl
      simp [PrepareForNewActiveCommandBuffer, hscan, hbeg.1]
    · intro hf
      have h1 := refresh_submitted_signaled cfg dpm b1 hs hf
      have herr' : (CmdBufferVulkan.RefreshFenceStatus cfg dpm b1).err = none := by
        rw [h1]
      have hb' : (CmdBufferVulkan.RefreshFenceStatus cfg dpm b1).buf.state
          = .ReadyForBegin := by rw [h1]
      have hbeg := begin_of_ready cfg (CmdBufferVulkan.RefreshFenceStatus cfg dpm b1).dpm
        (CmdBufferVulkan.RefreshFenceStatus cfg dpm b1).buf hb'
      have hscan : prepareScan cfg dpm [b1]
          = ⟨(CmdBufferVulkan.Begin cfg (CmdBufferVulkan.RefreshFenceStatus cfg dpm b1).dpm
                (CmdBufferVulkan.RefreshFenceStatus cfg dpm b1).buf).err,
             (CmdBufferVulkan.Begin cfg (CmdBufferVulkan.RefreshFenceStatus cfg dpm b1).dpm
                (CmdBufferVulkan.RefreshFenceStatus cfg dpm b1).buf).dpm,
             [(CmdBufferVulkan.Begin cfg (CmdBufferVulkan.RefreshFenceStatus cfg dpm b1).dpm
                (CmdBufferVulkan.RefreshFenceStatus cfg dpm b1).buf).buf],
             some 0⟩ := by
        simp [prepareScan, herr', hb']
      refine ⟨?_, ?_, ?_, ?_⟩ <;>
        simp [PrepareForNewActiveCommandBuffer, hscan, hbeg.1, hbeg.2]

/-- C3 witness: both scenarios evaluated — an in-flight (Submitted, unsignaled)
buffer forces creation of a second buffer with active index 1; a completed
(Submitted, signaled) buffer is reused as active index 0 with no growth. -/
theorem C3_scan_reuse_priority_witness :
    ((PrepareForNewActiveCommandBuffer cfgAll dpm0
        ⟨⟨[inFlightBuffer]⟩, none, []⟩).mgr.pool.cmdBuffers.length = 2 ∧
      (PrepareForNewActiveCommandBuffer cfgAll dpm0
        ⟨⟨[inFlightBuffer]⟩, none, []⟩).mgr.activeCmdBuffer = some 1) ∧
    ((PrepareForNewActiveCommandBuffer cfgAll dpm0
        ⟨⟨[doneBuffer]⟩, none, []⟩).mgr.pool.cmdBuffers.length = 1 ∧
      (PrepareForNewActiveCommandBuffer cfgAll dpm0
        ⟨⟨[doneBuffer]⟩, none, []⟩).mgr.activeCmdBuffer = some 0) := by
  have h := C3_scan_reuse_priority
  have hA := (h.2 cfgAll dpm0 inFlightBuffer [] rfl).1 rfl
  have hB := (h.2 cfgAll dpm0 doneBuffer [] rfl).2 rfl
  exact ⟨⟨hA.2.1, hA.2.2⟩, ⟨hB.2.1, hB.2.2.1⟩⟩

/-- C5: given an active buffer that has begun recording and is not already
submitted, `SubmitActiveCmdBuffer` force-closes an open render pass if any,
interrupts every in-progress query against the active buffer, ends the buffer,
submits it to the queue with the optional signal semaphore, and clears the
active-buffer reference; when the active buffer is not in that condition,
nothing is submitted and the active reference is still cleared to none. -/
theorem C5_submit_active (cfg : Config) (mgr : CmdBufferManagerVulkan)
    (sem : Option Nat) (i : Nat) (b : CmdBufferVulkan)
    (hact : mgr.activeCmdBuffer = some i)
    (hb : mgr.pool.cmdBuffers[i]? = some b) :
    ((!b.IsSubmitted && b.HasBegun) = true →
      (SubmitActiveCmdBuffer cfg mgr sem).err = none ∧
      (SubmitActiveCmdBuffer cfg mgr sem).mgr.activeCmdBuffer = none ∧
      (SubmitActiveCmdBuffer cfg mgr sem).events
        = mgr.queriesInProgress.map (fun q => TraceEvent.interrupt q i)
          ++ [TraceEvent.submit i sem] ∧
      (∃ b2, (SubmitActiveCmdBuffer cfg mgr sem).mgr.pool.cmdBuffers[i]?
          = some b2 ∧
        b2.state = .Submitted ∧
        (b.IsInsideRenderPass = true →
          b2.renderPassCloses = b.renderPassCloses + 1))) ∧
    ((!b.IsSubmitted && b.HasBegun) = false →
      (SubmitActiveCmdBuffer cfg mgr sem).err = none ∧
      (SubmitActiveCmdBuffer cfg mgr sem).mgr.activeCmdBuffer = none ∧
      (SubmitActiveCmdBuffer cfg mgr sem).mgr.pool = mgr.pool ∧
      (SubmitActiveCmdBuffer cfg mgr sem).events = []) := by
  constructor
  · intro hguard
    have hbegun : b.HasBegun = true := by
      have hg := hguard
      simp only [Bool.and_eq_true] at hg
      exact hg.2
    have heq := submit_active_begun cfg mgr sem i b hact hb hbegun
    have hlt : i < mgr.pool.cmdBuffers.length := by
      by_contra hc
      push_neg at hc
      rw [List.getElem?_eq_none hc] at hb
      cases hb
    rw [heq]
    refine ⟨rfl, rfl, rfl, _, List.getElem?_set_self hlt, rfl, ?_⟩
    intro hrp
    have hstate : b.state = .IsInsideRenderPass := by
      simpa [CmdBufferVulkan.IsInsideRenderPass] using hrp
    simp [hrp, CmdBufferVulkan.EndRenderPass, hstate, CmdBufferVulkan.End,
      QueueVulkanSubmit]
  · intro hguard
    simp [SubmitActiveCmdBuffer, hact, hb, hguard]

/-- C5 witness: submitting a recording active buffer with one in-progress query
issues exactly one `Interrupt` followed by the queue submission, and clears the
active reference. -/
theorem C5_submit_active_witness :
    (SubmitActiveCmdBuffer cfgAll mgrRecording none).err = none ∧
    (SubmitActiveCmdBuffer cfgAll mgrRecording none).mgr.activeCmdBuffer = none ∧
    (SubmitActiveCmdBuffer cfgAll mgrRecording none).events
      = [TraceEvent.interrupt 7 0, TraceEvent.submit 0 none] := by
  have h := (C5_submit_active cfgAll mgrRecording none 0 recordingBuffer rfl rfl).1
    (by decide)
  refine ⟨h.1, h.2.1, ?_⟩
  simpa [mgrRecording] using h.2.2.1

/-- C7 counterexample: submitting an active buffer that is recording (with no
debug spans open at all) leaves the submitted buffer's `eventsBegin` at `-1`,
not `0`: `End`'s flush loop terminates on a post-decrement.  The pair shown is
(state, eventsBegin) of the buffer after submission. -/
theorem C7_counterexample :
    ((SubmitActiveCmdBuffer cfgAll mgrRecording none).mgr.pool.cmdBuffers[0]?.map
        (fun b => (b.state, b.eventsBegin)))
      = some (.Submitted, -1) :=
  rfl

/-- C7 (amended): at the moment a buffer is submitted every open debug event
span has been force-closed — `End` emits one close-label call per open span —
but the nesting counter is left at `-1` rather than `0` (the next `Begin`
resets it to `0`). -/
theorem C7_end_flush (cfg : Config) (mgr : CmdBufferManagerVulkan)
    (sem : Option Nat) (i : Nat) (b : CmdBufferVulkan)
    (hact : mgr.activeCmdBuffer = some i)
    (hb : mgr.pool.cmdBuffers[i]? = some b)
    (hpe : cfg.allowProfileEvents = true)
    (hbegun : b.HasBegun = true)
    (hd : 0 ≤ b.eventsBegin) :
    ∃ b2, (SubmitActiveCmdBuffer cfg mgr sem).mgr.pool.cmdBuffers[i]? = some b2 ∧
      b2.state = .Submitted ∧
      b2.eventsBegin = -1 ∧
      b2.labelEndCalls = b.labelEndCalls + b.eventsBegin.toNat := by
  have heq := submit_active_begun cfg mgr sem i b hact hb hbegun
  have hlt : i < mgr.pool.cmdBuffers.length := by
    by_contra hc
    push_neg at hc
    rw [List.getElem?_eq_none hc] at hb
    cases hb
  rw [heq]
  refine ⟨_, List.getElem?_set_self hlt, rfl, ?_, ?_⟩ <;>
    rcases hasBegun_cases b hbegun with h1 | h1 <;>
      simp [CmdBufferVulkan.IsInsideRenderPass, h1, CmdBufferVulkan.EndRenderPass,
        CmdBufferVulkan.End, QueueVulkanSubmit, hpe, hd]

/-- C7 witness: the amended theorem at a recording buffer with zero open spans:
the submitted buffer carries `eventsBegin = -1` and no additional close-label
calls. -/
theorem C7_end_flush_witness :
    ∃ b2, (SubmitActiveCmdBuffer cfgAll mgrRecording none).mgr.pool.cmdBuffers[0]?
        = some b2 ∧
      b2.state = .Submitted ∧
      b2.eventsBegin = -1 ∧
      b2.labelEndCalls = recordingBuffer.labelEndCalls
        + recordingBuffer.eventsBegin.toNat :=
  C7_end_flush cfgAll mgrRecording none 0 recordingBuffer rfl rfl rfl
    (by decide) (by decide)
